import Mathlib

/-!
Verification development for the `cover-me` repository.

The Python sources are shallowly embedded:
- YAML configurations (`Dict[str, Any]`) are modelled as association lists
  `List (String × α)` with Python-dict semantics: lookup returns the first
  binding of a key, assignment replaces the first binding in place and
  appends a fresh binding at the end otherwise (CPython dicts preserve the
  position of an updated key and append new keys).
- the process environment `os.environ` is an association list of variables;
- the filesystem state relevant to `ConfigManager` is a record of the parsed
  contents of the three configuration file locations (a file that exists is
  `some` of its parse result, post `yaml.safe_load(f) or \x7b\x7d`);
- raised Python exceptions become `Except PyErr` results.
-/

namespace CoverMe

/-- Python exceptions raised by the embedded code paths. -/
inductive PyErr where
  /-- `cover_me.exceptions.ConfigurationError` -/
  | configurationError (msg : String)
  /-- built-in `ValueError` -/
  | valueError (msg : String)
  /-- built-in `KeyError`, carrying the missing key -/
  | keyError (key : String)
  /-- built-in `Exception` with a message (used for wrapped generation failures) -/
  | exception (msg : String)
  deriving DecidableEq, Repr

instance {ε α : Type} [DecidableEq ε] [DecidableEq α] : DecidableEq (Except ε α) := fun
  | .ok a, .ok b =>
    if h : a = b then .isTrue (by rw [h]) else .isFalse (by intro hh; cases hh; exact h rfl)
  | .ok _, .error _ => .isFalse (by intro h; cases h)
  | .error _, .ok _ => .isFalse (by intro h; cases h)
  | .error a, .error b =>
    if h : a = b then .isTrue (by rw [h]) else .isFalse (by intro hh; cases hh; exact h rfl)

/-- One configuration section: a Python dict from keys to (string) values. -/
abbrev ConfigSection := List (String × String)

/-- A whole configuration: a Python dict from section names to sections. -/
abbrev Config := List (String × ConfigSection)

/-- The process environment `os.environ`. -/
abbrev Env := List (String × String)

/-- Python dict lookup `d.get(k)` / `d[k]`: first binding of `k`, if any. -/
def lookupKey {α : Type} : List (String × α) → String → Option α
  | [], _ => none
  | (k', v) :: t, k => if k' = k then some v else lookupKey t k

/-- Python dict membership `k in d`. -/
def hasKey {α : Type} (d : List (String × α)) (k : String) : Bool :=
  (lookupKey d k).isSome

/-- Python dict assignment `d[k] = v`: replace the first binding of `k`
in place, else append a new binding at the end. -/
def setKey {α : Type} : List (String × α) → String → α → List (String × α)
  | [], k, v => [(k, v)]
  | (k', v') :: t, k, v => if k' = k then (k, v) :: t else (k', v') :: setKey t k v

/-- Lookup of an environment variable, `os.environ.get(name)` / `os.getenv(name)`. -/
def envGet (env : Env) (k : String) : Option String := lookupKey env k

/-- Filesystem state seen by `ConfigManager` (`src/cover_me/config/manager.py`):
the parsed contents of the three configuration file locations.  `none` means
the file does not exist; `some c` means it exists and `yaml.safe_load` (with
the `or \x7b\x7d` guard mapping an empty parse to the empty dict) yields `c`. -/
structure FS where
  /-- parse of `~/.cover-me/config.yaml` -/
  userFile : Option Config
  /-- parse of `defaults/config.yaml` -/
  defaultFile : Option Config
  /-- parse of the legacy location `config/config.yaml` -/
  legacyFile : Option Config
  deriving DecidableEq, Repr

/-- `ConfigManager.has_user_config` (manager.py lines 29-31). -/
def has_user_config (fs : FS) : Bool := fs.userFile.isSome

/-- `ConfigManager._get_default_config` (manager.py lines 143-168):
use `defaults/config.yaml` when it exists, else fall back to the legacy
`config/config.yaml`, else raise `ConfigurationError`. -/
def get_default_config (fs : FS) : Except PyErr Config :=
  match fs.defaultFile with
  | some c => .ok c
  | none =>
    match fs.legacyFile with
    | some c => .ok c
    | none => .error (.configurationError
        "No default configuration found. Please run setup to initialize configuration.")

/-- `ConfigManager._apply_env_overrides` (manager.py lines 170-186):
`COVER_ME_LLM_PROVIDER` replaces `llm.provider` (creating the `llm` section
when absent) and `COVER_ME_OUTPUT_DIR` replaces `output.output_dir`
(creating the `output` section when absent). -/
def apply_env_overrides (env : Env) (config : Config) : Config :=
  let c1 :=
    match envGet env "COVER_ME_LLM_PROVIDER" with
    | some p => setKey config "llm" (setKey ((lookupKey config "llm").getD []) "provider" p)
    | none => config
  match envGet env "COVER_ME_OUTPUT_DIR" with
  | some d => setKey c1 "output" (setKey ((lookupKey c1 "output").getD []) "output_dir" d)
  | none => c1

/-- `ConfigManager.load_config` (manager.py lines 33-65): user file if it
exists, else the installation defaults, then environment overrides on top. -/
def load_config (fs : FS) (env : Env) : Except PyErr Config :=
  match fs.userFile with
  | some c => .ok (apply_env_overrides env c)
  | none =>
    match get_default_config fs with
    | .ok c => .ok (apply_env_overrides env c)
    | .error e => .error e

/-- `ConfigManager.save_config` (manager.py lines 67-75): write `config` to
the user configuration file (directory creation is not modelled). -/
def save_config (fs : FS) (config : Config) : FS :=
  { fs with userFile := some config }

/-- `ConfigManager.validate_api_keys` (manager.py lines 227-264).  The
indexing `config['llm']['provider']` is unguarded, hence the `KeyError`
results; the long remediation text of the two `ConfigurationError` messages
is abbreviated to its first line. -/
def validate_api_keys (config : Config) (env : Env) : Except PyErr Unit :=
  match lookupKey config "llm" with
  | none => .error (.keyError "llm")
  | some llm =>
    match lookupKey llm "provider" with
    | none => .error (.keyError "provider")
    | some provider =>
      if provider = "openai" then
        if envGet env "OPENAI_API_KEY" = none then
          .error (.configurationError "OpenAI API key not found.")
        else .ok ()
      else if provider = "anthropic" then
        if envGet env "ANTHROPIC_API_KEY" = none then
          .error (.configurationError "Anthropic API key not found.")
        else .ok ()
      else .ok ()

/-- `ConfigManager.validate_config` (manager.py lines 188-225): required
sections `llm` and `output`, then `llm.provider` present and supported, then
`llm.model` present, then the API-key check. -/
def validate_config (config : Config) (env : Env) : Except PyErr Unit :=
  if ¬ hasKey config "llm" then
    .error (.configurationError
      "Missing required configuration section: llm. Run 'cover-me setup' to initialize your configuration.")
  else if ¬ hasKey config "output" then
    .error (.configurationError
      "Missing required configuration section: output. Run 'cover-me setup' to initialize your configuration.")
  else
    let llm := (lookupKey config "llm").getD []
    match lookupKey llm "provider" with
    | none => .error (.configurationError
        "LLM provider not specified. Run 'cover-me setup' to configure your AI provider.")
    | some provider =>
      if ¬ (provider = "openai" ∨ provider = "anthropic") then
        .error (.configurationError
          ("Unsupported LLM provider: " ++ provider ++ ". Supported providers: openai, anthropic"))
      else if ¬ hasKey llm "model" then
        .error (.configurationError
          "LLM model not specified. Run 'cover-me configure' to select a model.")
      else validate_api_keys config env

/-- `ConfigManager.check_api_keys_early` (manager.py lines 266-281). -/
def check_api_keys_early (fs : FS) (env : Env) : Except PyErr Unit :=
  if ¬ has_user_config fs then
    .error (.configurationError "No configuration found. Run 'cover-me setup' to get started.")
  else
    match load_config fs env with
    | .ok config => validate_api_keys config env
    | .error e => .error e

/-- Python `str.lower()` restricted to the ASCII range (sufficient for the
provider names compared by the factory). -/
def pyLower (s : String) : String := String.mk (s.data.map Char.toLower)

/-- Python whitespace characters recognised by `str.strip()` (the ASCII ones:
space, tab, newline, carriage return, vertical tab, form feed). -/
def isPySpace (c : Char) : Bool :=
  c = ' ' ∨ c = '\t' ∨ c = '\n' ∨ c = '\r' ∨ c = '\x0b' ∨ c = '\x0c'

/-- Python `str.strip()` on a character list: drop whitespace from both ends. -/
def pyStripL (l : List Char) : List Char :=
  ((l.dropWhile isPySpace).reverse.dropWhile isPySpace).reverse

/-- Python `str.strip()`. -/
def pyStrip (s : String) : String := String.mk (pyStripL s.data)

/-- `mask_api_key` (`src/llm/base.py` lines 5-16): keys that are empty or
shorter than 8 characters mask to `"****"`; otherwise the first four
characters, then `"..."`, then the last four. -/
def mask_api_key (k : List Char) : List Char :=
  if k = [] ∨ k.length < 8 then "****".data
  else k.take 4 ++ "...".data ++ k.drop (k.length - 4)

/-- An instantiated LLM client, the state built by `OpenAIClient.__init__` /
`AnthropicClient.__init__` (`src/llm/openai_client.py`,
`src/llm/anthropic_client.py`).  The numeric generation parameters
(`max_tokens`, `temperature`) and the SDK connection handle are not
referenced by any claim and are omitted. -/
structure LLMClient where
  /-- which backend variant this client talks to -/
  provider : String
  /-- resolved model name, `config.get("model", default)` -/
  model : String
  /-- the credential read from the environment at construction -/
  api_key : String
  deriving DecidableEq, Repr

/-- `OpenAIClient.__init__` (openai_client.py lines 10-32): requires a
non-empty `OPENAI_API_KEY` environment variable (`if not api_key`), model
defaults to `"gpt-4o"`. -/
def OpenAIClient_init (config : ConfigSection) (env : Env) : Except PyErr LLMClient :=
  match envGet env "OPENAI_API_KEY" with
  | none => .error (.valueError "OPENAI_API_KEY environment variable is required")
  | some key =>
    if key = "" then .error (.valueError "OPENAI_API_KEY environment variable is required")
    else .ok { provider := "openai"
               model := (lookupKey config "model").getD "gpt-4o"
               api_key := key }

/-- `AnthropicClient.__init__` (anthropic_client.py lines 10-30): requires a
non-empty `ANTHROPIC_API_KEY` environment variable, model defaults to
`"claude-3-5-sonnet-20241022"`. -/
def AnthropicClient_init (config : ConfigSection) (env : Env) : Except PyErr LLMClient :=
  match envGet env "ANTHROPIC_API_KEY" with
  | none => .error (.valueError "ANTHROPIC_API_KEY environment variable is required")
  | some key =>
    if key = "" then .error (.valueError "ANTHROPIC_API_KEY environment variable is required")
    else .ok { provider := "anthropic"
               model := (lookupKey config "model").getD "claude-3-5-sonnet-20241022"
               api_key := key }

/-- The message of the unsupported-provider `ValueError` raised by the
factory (`src/llm/__init__.py` lines 28-32), `', '.join` inlined. -/
def unsupported_provider_msg (p : String) : String :=
  "Unsupported LLM provider: '" ++ p ++ "'. Supported providers: openai, anthropic"

/-- `create_llm_client` (`src/llm/__init__.py` lines 9-32):
`config.get("provider", "openai").lower()` selects the variant; values
outside the supported set raise `ValueError`. -/
def create_llm_client (config : ConfigSection) (env : Env) : Except PyErr LLMClient :=
  let provider := pyLower ((lookupKey config "provider").getD "openai")
  if provider = "openai" then OpenAIClient_init config env
  else if provider = "anthropic" then AnthropicClient_init config env
  else .error (.valueError (unsupported_provider_msg provider))

/-- Modelled from the spec: the concrete `get_provider_info` implementations
of `OpenAIClient` and `AnthropicClient` are absent from the source snapshot
(`src/llm/base.py` lines 56-63 only declares the method abstract).  Per the
spec it returns a mapping `\x7bprovider, model, maskedApiKey\x7d` where the
masked key shows only the first and last four characters. -/
def LLMClient.get_provider_info (c : LLMClient) : List (String × String) :=
  [("provider", c.provider),
   ("model", c.model),
   ("api_key", String.mk (mask_api_key c.api_key.data))]

/-- The two provider-client calls `CoverLetterGenerator.generate` can make. -/
inductive ClientCall where
  | validateApiKey
  | generateCoverLetter
  deriving DecidableEq, Repr

/-- Observable behaviour of the injected provider client: the result of the
connectivity probe and the outcome of one generation call. -/
structure ClientBehavior where
  /-- what `validate_api_key()` returns -/
  validate_ok : Bool
  /-- what `generate_cover_letter(...)` does: a letter, or a raised message -/
  gen_result : Except String String
  deriving Repr

/-- `CoverLetterGenerator.generate` (`src/cover_me/cover_letter.py` lines
113-143), instrumented with the list of provider-client calls it performs.
A blank job description raises `ValueError` before the `try` block; inside
it the probe failure and any generation failure are wrapped into
`Exception("Failed to generate cover letter: ...")`. -/
def generate (client : ClientBehavior) (job_description : String) :
    Except PyErr String × List ClientCall :=
  if pyStripL job_description.data = [] then
    (.error (.valueError "Job description cannot be empty"), [])
  else if client.validate_ok = false then
    (.error (.exception "Failed to generate cover letter: Invalid API key or connection failed"),
     [.validateApiKey])
  else
    match client.gen_result with
    | .ok letter => (.ok letter, [.validateApiKey, .generateCoverLetter])
    | .error msg =>
        (.error (.exception ("Failed to generate cover letter: " ++ msg)),
         [.validateApiKey, .generateCoverLetter])

/-- The replacement performed for one matched placeholder by the `replacer`
closure of `PDFGenerator._substitute_variables`
(`src/cover_me/pdf_generator.py` lines 119-122): the value bound to the
stripped variable name, else the re-rendered placeholder
`f"\x7b\x7b\x7b\x7b \x7bvar_name\x7d \x7d\x7d\x7d\x7d"`, i.e. the name in
single-space canonical braces. -/
def substFor (vars : List (String × String)) (name : String) : String :=
  match lookupKey vars name with
  | some v => v
  | none => "\x7b\x7b " ++ name ++ " \x7d\x7d"

/-- `PDFGenerator._substitute_variables` (pdf_generator.py lines 109-125):
`re.sub` of the pattern `\x5c\x7b\x5c\x7b\s*([^\x7d]+)\s*\x5c\x7b\x5c\x7d`
style placeholder regex over the template.  The regex matches at an opening
`\x7b\x7b` exactly when a non-empty run of non-`\x7d` characters follows,
terminated by `\x7d\x7d`; the greedy `\s*`/`([^\x7d]+)` split makes the
stripped group equal the stripped run.  `re.sub` scans left to right,
advancing one character on a failed match and past the match (never
rescanning the replacement) on success, which is exactly this recursion. -/
def pySubstituteGo (vars : List (String × String)) : Nat → List Char → List Char
  | _, [] => []
  | 0, l => l
  | fuel + 1, c :: t =>
    if c = '\x7b' ∧ t.take 1 = ['\x7b'] then
      let t' := t.drop 1
      let run := t'.takeWhile (fun x => x ≠ '\x7d')
      let rest := t'.drop run.length
      if run ≠ [] ∧ rest.take 2 = ['\x7d', '\x7d'] then
        (substFor vars (String.mk (pyStripL run))).data ++ pySubstituteGo vars fuel (rest.drop 2)
      else c :: pySubstituteGo vars fuel t
    else c :: pySubstituteGo vars fuel t

/-- The substitution itself: the scan consumes at least one character per
step, so fuel equal to the template length always suffices (the zero-fuel
fallback of `pySubstituteGo` is unreachable). -/
def pySubstitute (vars : List (String × String)) (l : List Char) : List Char :=
  pySubstituteGo vars l.length l

/-- A template decomposed into literal text and placeholders, the shape the
substitution claims quantify over. -/
inductive TSeg where
  /-- literal template text -/
  | lit (s : String)
  /-- a placeholder `\x7b\x7b` ++ content ++ `\x7d\x7d` -/
  | ph (content : String)

/-- Render a decomposed template back to its character stream. -/
def renderT : List TSeg → List Char
  | [] => []
  | .lit s :: r => s.data ++ renderT r
  | .ph c :: r => '\x7b' :: '\x7b' :: (c.data ++ '\x7d' :: '\x7d' :: renderT r)

/-- The substitution result the code produces on a decomposed template:
literals verbatim, each placeholder replaced via `substFor` applied to its
stripped content. -/
def substT (vars : List (String × String)) : List TSeg → List Char
  | [] => []
  | .lit s :: r => s.data ++ substT vars r
  | .ph c :: r => (substFor vars (pyStrip c)).data ++ substT vars r

/-- Well-formedness of a decomposed template: literal text carries no brace
openers (so no placeholder forms across segment boundaries) and placeholder
content is non-empty and free of closing braces (the shape the placeholder
regex accepts). -/
def WFseg : TSeg → Prop
  | .lit s => ∀ ch ∈ s.data, ch ≠ '\x7b'
  | .ph c => c.data ≠ [] ∧ ∀ ch ∈ c.data, ch ≠ '\x7d'

instance : DecidablePred WFseg := by
  intro seg
  cases seg <;> simp only [WFseg] <;> infer_instance

/-! Helper lemmas about the dict operations. -/

theorem lookupKey_setKey_self {α : Type} (d : List (String × α)) (k : String) (v : α) :
    lookupKey (setKey d k v) k = some v := by
  induction d with
  | nil => simp [setKey, lookupKey]
  | cons p t ih =>
    obtain ⟨k', v'⟩ := p
    by_cases h : k' = k
    · simp [setKey, h, lookupKey]
    · simp [setKey, h, lookupKey, ih]

theorem lookupKey_setKey_ne {α : Type} (d : List (String × α)) (k k' : String) (v : α)
    (h : k' ≠ k) : lookupKey (setKey d k' v) k = lookupKey d k := by
  induction d with
  | nil => simp [setKey, lookupKey, h]
  | cons p t ih =>
    obtain ⟨k₀, v₀⟩ := p
    by_cases h0 : k₀ = k'
    · subst h0
      simp [setKey, lookupKey, h]
    · simp [setKey, h0, lookupKey, ih]

/-- C6: a job description that is blank after trimming is rejected by
`CoverLetterGenerator.generate` with a `ValueError` before any provider
interaction: the list of provider-client calls performed is empty, so
neither `validate_api_key` nor `generate_cover_letter` is invoked. -/
theorem generate_blank_rejected (client : ClientBehavior) (jd : String)
    (h : pyStripL jd.data = []) :
    generate client jd = (.error (.valueError "Job description cannot be empty"), []) := by
  simp [generate, h]

/-- Witness for `generate_blank_rejected` at a concrete whitespace-only input. -/
theorem generate_blank_rejected_witness :
    generate ⟨true, .ok "letter"⟩ "  \n\t " =
      (.error (.valueError "Job description cannot be empty"), []) :=
  generate_blank_rejected ⟨true, .ok "letter"⟩ "  \n\t " (by decide)

/-- C9: when the user configuration file exists but parses to nothing, the
empty mapping is the base configuration — the defaults are fully shadowed
(the result does not depend on the default or legacy files) and the result
consists only of the environment-variable overrides. -/
theorem load_config_empty_user_shadows (fs : FS) (env : Env)
    (h : fs.userFile = some []) :
    load_config fs env = .ok (apply_env_overrides env []) := by
  simp [load_config, h]

/-- Witness for `load_config_empty_user_shadows`: an empty user file shadows
a default file that would have set a provider; only the override survives. -/
theorem load_config_empty_user_shadows_witness :
    load_config ⟨some [], some [("llm", [("provider", "default-p")])], none⟩
        [("COVER_ME_LLM_PROVIDER", "anthropic")] =
      .ok [("llm", [("provider", "anthropic")])] := by
  rw [load_config_empty_user_shadows _ _ rfl]
  decide

/-- C10: if the user configuration file exists but the loaded configuration
lacks an `llm` section or an `llm.provider` key, `check_api_keys_early`
escapes with a raw `KeyError` (from the unguarded
`config['llm']['provider']` in `validate_api_keys`), not a
`ConfigurationError`. -/
theorem check_api_keys_early_keyerror (fs : FS) (env : Env) (u : Config)
    (hu : fs.userFile = some u) :
    (lookupKey (apply_env_overrides env u) "llm" = none →
      check_api_keys_early fs env = .error (.keyError "llm")) ∧
    (∀ llm, lookupKey (apply_env_overrides env u) "llm" = some llm →
      lookupKey llm "provider" = none →
      check_api_keys_early fs env = .error (.keyError "provider")) := by
  constructor
  · intro hl
    simp [check_api_keys_early, has_user_config, hu, load_config, validate_api_keys, hl]
  · intro llm hl hp
    simp [check_api_keys_early, has_user_config, hu, load_config, validate_api_keys, hl, hp]

/-- Witness for `check_api_keys_early_keyerror`: a user configuration with
only an `output` section yields `KeyError('llm')`. -/
theorem check_api_keys_early_keyerror_witness :
    check_api_keys_early ⟨some [("output", [])], none, none⟩ [] =
      .error (.keyError "llm") :=
  (check_api_keys_early_keyerror ⟨some [("output", [])], none, none⟩ [] [("output", [])]
    rfl).1 (by decide)

/-- Counterexample to C8 as stated: with the provider-override environment
variable set, saving and then loading does not preserve the `llm` section —
`load_config` applies the override on top, so the loaded `llm.provider`
differs from the saved one (not merely a reordering). -/
theorem save_load_override_counterexample :
    load_config (save_config ⟨none, none, none⟩
        [("llm", [("provider", "openai")]), ("output", [("output_dir", "out")])])
        [("COVER_ME_LLM_PROVIDER", "anthropic")] =
      .ok [("llm", [("provider", "anthropic")]), ("output", [("output_dir", "out")])] ∧
    lookupKey [("provider", "anthropic")] "provider" ≠
      lookupKey [("provider", "openai")] "provider" := by
  decide

/-- C8 (amended): in an environment where neither `COVER_ME_LLM_PROVIDER`
nor `COVER_ME_OUTPUT_DIR` is set, saving a configuration and then loading it
returns exactly the saved configuration (in particular the `llm` and
`output` sections are structurally equal to the saved ones). -/
theorem save_load_roundtrip (fs : FS) (c : Config) (env : Env)
    (h1 : envGet env "COVER_ME_LLM_PROVIDER" = none)
    (h2 : envGet env "COVER_ME_OUTPUT_DIR" = none) :
    load_config (save_config fs c) env = .ok c := by
  simp [load_config, save_config, apply_env_overrides, h1, h2]

/-- Witness for `save_load_roundtrip` at a concrete configuration and an
environment holding only an unrelated variable. -/
theorem save_load_roundtrip_witness :
    load_config (save_config ⟨none, none, none⟩
        [("llm", [("provider", "openai"), ("model", "gpt-4o")]),
         ("output", [("format", "pdf"), ("output_dir", "out")])])
        [("OPENAI_API_KEY", "sk-test")] =
      .ok [("llm", [("provider", "openai"), ("model", "gpt-4o")]),
           ("output", [("format", "pdf"), ("output_dir", "out")])] :=
  save_load_roundtrip ⟨none, none, none⟩ _ _ (by decide) (by decide)

/-- Counterexample to C5 as stated: with neither the user configuration
file nor the installation-default file present, `load_config` does not fail
— the code falls back to the legacy `config/config.yaml` location when that
file exists. -/
theorem load_config_legacy_counterexample :
    load_config ⟨none, none, some [("llm", [("provider", "openai")])]⟩ [] =
      .ok [("llm", [("provider", "openai")])] := by
  decide

/-- C5 (amended): the user file, if present, is the base; otherwise the
installation-default file; otherwise the legacy configuration location;
only when all three are absent does `load_config` fail with
`ConfigurationError`.  In every successful case the environment overrides
are applied on top of the base: `COVER_ME_LLM_PROVIDER` replaces
`llm.provider` and `COVER_ME_OUTPUT_DIR` replaces `output.output_dir`,
regardless of which file served as the base. -/
theorem load_config_resolution (fs : FS) (env : Env) :
    (∀ c, fs.userFile = some c → load_config fs env = .ok (apply_env_overrides env c)) ∧
    (∀ d, fs.userFile = none → fs.defaultFile = some d →
      load_config fs env = .ok (apply_env_overrides env d)) ∧
    (∀ l, fs.userFile = none → fs.defaultFile = none → fs.legacyFile = some l →
      load_config fs env = .ok (apply_env_overrides env l)) ∧
    (fs.userFile = none → fs.defaultFile = none → fs.legacyFile = none →
      load_config fs env = .error (.configurationError
        "No default configuration found. Please run setup to initialize configuration.")) ∧
    (∀ c p, envGet env "COVER_ME_LLM_PROVIDER" = some p →
      lookupKey ((lookupKey (apply_env_overrides env c) "llm").getD []) "provider" = some p) ∧
    (∀ c d, envGet env "COVER_ME_OUTPUT_DIR" = some d →
      lookupKey ((lookupKey (apply_env_overrides env c) "output").getD []) "output_dir" = some d) := by
  refine ⟨?_, ?_, ?_, ?_, ?_, ?_⟩
  · intro c hc
    simp [load_config, hc]
  · intro d hu hd
    simp [load_config, get_default_config, hu, hd]
  · intro l hu hd hl
    simp [load_config, get_default_config, hu, hd, hl]
  · intro hu hd hl
    simp [load_config, get_default_config, hu, hd, hl]
  · intro c p hp
    unfold apply_env_overrides
    rw [hp]
    cases hd : envGet env "COVER_ME_OUTPUT_DIR" with
    | none =>
      simp [lookupKey_setKey_self]
    | some d =>
      simp only
      rw [lookupKey_setKey_ne _ _ _ _ (by decide), lookupKey_setKey_self]
      simp [lookupKey_setKey_self]
  · intro c d hd
    unfold apply_env_overrides
    rw [hd]
    cases hp : envGet env "COVER_ME_LLM_PROVIDER" with
    | none => simp [lookupKey_setKey_self]
    | some p => simp [lookupKey_setKey_self]

/-- Witness for `load_config_resolution` on its default-file arm: no user
file, a concrete default file, empty environment. -/
theorem load_config_resolution_witness :
    load_config ⟨none, some [("output", [("format", "text")])], none⟩ [] =
      .ok [("output", [("format", "text")])] := by
  have h := (load_config_resolution ⟨none, some [("output", [("format", "text")])], none⟩
    []).2.1 [("output", [("format", "text")])] rfl rfl
  exact h.trans (by decide)

/-- Counterexample to C1 as stated: the claim's success condition (llm
section present, provider present and supported, credential present) is
satisfied here, yet `validate_config` raises `ConfigurationError` because
the `output` section is absent (the code also requires `output` and
`llm.model`, which the claim's success clause omits). -/
theorem validate_config_claim_counterexample :
    validate_config [("llm", [("provider", "openai"), ("model", "gpt-4o")])]
        [("OPENAI_API_KEY", "sk-test")] =
      .error (.configurationError
        "Missing required configuration section: output. Run 'cover-me setup' to initialize your configuration.") := by
  decide

/-- C1 (amended): `validate_config` succeeds exactly when the `llm` AND
`output` sections are present, `llm.provider` is present and in
\x7bopenai, anthropic\x7d, `llm.model` is present, and the environment
credential corresponding to the selected provider is present; in every
other case it raises (the failure list of the claim is exhaustive, but the
success condition also needs the `output` section and `llm.model`). -/
theorem validate_config_ok_iff (c : Config) (env : Env) :
    validate_config c env = .ok () ↔
      ∃ llm, lookupKey c "llm" = some llm ∧
        lookupKey c "output" ≠ none ∧
        ∃ p, lookupKey llm "provider" = some p ∧
          (p = "openai" ∨ p = "anthropic") ∧
          lookupKey llm "model" ≠ none ∧
          envGet env (if p = "openai" then "OPENAI_API_KEY" else "ANTHROPIC_API_KEY") ≠ none := by
  unfold validate_config validate_api_keys hasKey
  cases hl : lookupKey c "llm" with
  | none => simp [hl]
  | some llm =>
    cases ho : lookupKey c "output" with
    | none => simp [hl, ho]
    | some o =>
      cases hp : lookupKey llm "provider" with
      | none => simp [hl, ho, hp]
      | some p =>
        by_cases hpo : p = "openai"
        · subst hpo
          cases hm : lookupKey llm "model" with
          | none => simp [hl, ho, hp, hm]
          | some m =>
            cases hk : envGet env "OPENAI_API_KEY" with
            | none => simp [hl, ho, hp, hm, hk]
            | some k => simp [hl, ho, hp, hm, hk]
        · by_cases hpa : p = "anthropic"
          · subst hpa
            cases hm : lookupKey llm "model" with
            | none => simp [hl, ho, hp, hm]
            | some m =>
              cases hk : envGet env "ANTHROPIC_API_KEY" with
              | none => simp [hl, ho, hp, hm, hk]
              | some k => simp [hl, ho, hp, hm, hk]
          · simp [hl, ho, hp, hpo, hpa]

/-- C2 (modelled from the spec for `get_provider_info`): for a supported
provider P with its credential present (and non-empty, as the clients
reject empty keys), the factory returns a client whose provider info maps
`provider` to P. -/
theorem create_llm_client_provider_info (cfg : ConfigSection) (env : Env) (P key : String)
    (hP : P = "openai" ∨ P = "anthropic")
    (hprov : lookupKey cfg "provider" = some P)
    (hkey : envGet env (if P = "openai" then "OPENAI_API_KEY" else "ANTHROPIC_API_KEY") = some key)
    (hne : key ≠ "") :
    ∃ client, create_llm_client cfg env = .ok client ∧
      lookupKey client.get_provider_info "provider" = some P := by
  rcases hP with h | h <;> subst h
  · have hlow : pyLower "openai" = "openai" := by decide
    have hkey' : envGet env "OPENAI_API_KEY" = some key := by simpa using hkey
    refine ⟨{ provider := "openai", model := (lookupKey cfg "model").getD "gpt-4o",
              api_key := key }, ?_, ?_⟩
    · simp [create_llm_client, hprov, hlow, OpenAIClient_init, hkey', hne]
    · simp [LLMClient.get_provider_info, lookupKey]
  · have hlow : pyLower "anthropic" = "anthropic" := by decide
    have hkey' : envGet env "ANTHROPIC_API_KEY" = some key := by simpa using hkey
    refine ⟨{ provider := "anthropic",
              model := (lookupKey cfg "model").getD "claude-3-5-sonnet-20241022",
              api_key := key }, ?_, ?_⟩
    · simp [create_llm_client, hprov, hlow, AnthropicClient_init, hkey', hne]
    · simp [LLMClient.get_provider_info, lookupKey]

/-- Witness for `create_llm_client_provider_info` at provider `anthropic`. -/
theorem create_llm_client_provider_info_witness :
    ∃ client,
      create_llm_client [("provider", "anthropic"), ("model", "claude-3-5-sonnet-20241022")]
        [("ANTHROPIC_API_KEY", "sk-ant-12345678")] = .ok client ∧
      lookupKey client.get_provider_info "provider" = some "anthropic" :=
  create_llm_client_provider_info _ _ "anthropic" "sk-ant-12345678"
    (Or.inr rfl) (by decide) (by decide) (by decide)

/-- Counterexample to C3 as stated: a configuration with no `provider` key
does not fail — `config.get("provider", "openai")` silently defaults to the
OpenAI provider and the factory constructs an OpenAI client. -/
theorem create_llm_client_missing_provider_defaults :
    create_llm_client [] [("OPENAI_API_KEY", "sk-test-12345678")] =
      .ok { provider := "openai", model := "gpt-4o", api_key := "sk-test-12345678" } := by
  decide

/-- C3 (amended): for every configuration whose `provider` key is present
and whose lowercased value is outside \x7bopenai, anthropic\x7d, the
factory fails with the unsupported-provider `ValueError` naming the
lowercased offending value and the supported set, and never constructs a
client; but a configuration with no `provider` key at all silently
defaults to the OpenAI provider. -/
theorem create_llm_client_unsupported (cfg : ConfigSection) (env : Env) (p : String)
    (hprov : lookupKey cfg "provider" = some p)
    (h1 : pyLower p ≠ "openai") (h2 : pyLower p ≠ "anthropic") :
    create_llm_client cfg env = .error (.valueError (unsupported_provider_msg (pyLower p))) := by
  simp [create_llm_client, hprov, h1, h2]

/-- Witness for `create_llm_client_unsupported` at provider value `GROQ`
(lowercased to `groq` in the error message). -/
theorem create_llm_client_unsupported_witness :
    create_llm_client [("provider", "GROQ")] [] =
      .error (.valueError
        "Unsupported LLM provider: 'groq'. Supported providers: openai, anthropic") := by
  have h := create_llm_client_unsupported [("provider", "GROQ")] [] "GROQ"
    (by decide) (by decide) (by decide)
  exact h.trans (by decide)

/-- If `s` occurs inside `a ++ b ++ c` and is long enough to cover the
whole middle block `b` from either end, then `b` occurs inside `s`. -/
theorem infix_middle (a b c s : List Char) (h : s <:+: a ++ b ++ c)
    (h1 : a.length + b.length ≤ s.length) (h2 : b.length + c.length ≤ s.length) :
    b <:+: s := by
  obtain ⟨u, v, huv⟩ := h
  have hlen : u.length + s.length + v.length = a.length + b.length + c.length := by
    have h' := congrArg List.length huv
    simp only [List.length_append] at h'
    omega
  have hu : u.length ≤ a.length := by omega
  have hv : v.length ≤ c.length := by omega
  have e1 : u ++ (s ++ v) = a.take u.length ++ (a.drop u.length ++ (b ++ c)) := by
    simp only [← List.append_assoc, List.take_append_drop]
    exact huv
  have hlu : u.length = (a.take u.length).length := by
    rw [List.length_take]
    omega
  obtain ⟨hu_eq, hrest⟩ := List.append_inj e1 hlu
  have e2 : s ++ v =
      (a.drop u.length ++ b ++ c.take (c.length - v.length)) ++
        c.drop (c.length - v.length) := by
    simp only [List.append_assoc, List.take_append_drop]
    simpa only [List.append_assoc] using hrest
  have hlv : v.length = (c.drop (c.length - v.length)).length := by
    rw [List.length_drop]
    omega
  obtain ⟨hs_eq, _⟩ := List.append_inj' e2 hlv
  exact ⟨a.drop u.length, c.take (c.length - v.length), hs_eq.symm⟩

/-- Counterexample to the last conjunct of C4 as stated: for the key
`"abcd...wxyz"` (length 11) the mask equals the key itself, so the result
contains a substring of the key of length 11 > 8 — the separator `"..."`
can collide with characters of the key. -/
theorem mask_api_key_self_counterexample :
    mask_api_key "abcd...wxyz".data = "abcd...wxyz".data ∧
    "abcd...wxyz".data <:+: mask_api_key "abcd...wxyz".data ∧
    8 < "abcd...wxyz".data.length := by
  refine ⟨by decide, ?_, by decide⟩
  exact ⟨[], [], by decide⟩

/-- C4 (amended): keys of length < 8 (including the empty key) mask to the
fixed placeholder `"****"`; keys of length ≥ 8 mask to the first four
characters, the separator `"..."`, and the last four; and provided the key
does not itself contain the separator `"..."`, the result contains no
substring of the key of length > 8. -/
theorem mask_api_key_spec (k : List Char) :
    (k.length < 8 → mask_api_key k = "****".data) ∧
    (8 ≤ k.length → mask_api_key k = k.take 4 ++ "...".data ++ k.drop (k.length - 4)) ∧
    (¬ ("...".data <:+: k) → ∀ s, s <:+: k → s <:+: mask_api_key k → s.length ≤ 8) := by
  refine ⟨?_, ?_, ?_⟩
  · intro h
    simp [mask_api_key, h]
  · intro h
    have hne : ¬ (k = [] ∨ k.length < 8) := by
      rintro (rfl | h')
      · simp at h
      · omega
    simp [mask_api_key, hne]
  · intro hno s hsk hsm
    by_cases hlen : k.length < 8
    · have hm : mask_api_key k = "****".data := by simp [mask_api_key, hlen]
      rw [hm] at hsm
      have h4 := hsm.length_le
      have : ("****".data).length = 4 := by decide
      omega
    · push_neg at hlen
      by_contra hgt
      push_neg at hgt
      have hne : ¬ (k = [] ∨ k.length < 8) := by
        rintro (rfl | h')
        · simp at hlen
        · omega
      have hm : mask_api_key k = k.take 4 ++ "...".data ++ k.drop (k.length - 4) := by
        simp [mask_api_key, hne]
      rw [hm] at hsm
      have hd3 : ("...".data).length = 3 := by decide
      have h1 : (k.take 4).length + ("...".data).length ≤ s.length := by
        rw [List.length_take]
        omega
      have h2 : ("...".data).length + (k.drop (k.length - 4)).length ≤ s.length := by
        rw [List.length_drop]
        omega
      exact hno ((infix_middle _ _ _ s hsm h1 h2).trans hsk)

/-- Witness for `mask_api_key_spec`: a short key masks to the placeholder. -/
theorem mask_api_key_spec_witness :
    mask_api_key "ab".data = "****".data :=
  (mask_api_key_spec "ab".data).1 (by decide)

/-- The scan result does not depend on the fuel, provided the fuel covers
the remaining template length. -/
theorem pySubstituteGo_fuel (vars : List (String × String)) :
    ∀ (f₁ f₂ : Nat) (l : List Char), l.length ≤ f₁ → l.length ≤ f₂ →
      pySubstituteGo vars f₁ l = pySubstituteGo vars f₂ l := by
  intro f₁
  induction f₁ with
  | zero =>
    intro f₂ l h₁ _
    have hl : l = [] := List.eq_nil_of_length_eq_zero (Nat.le_zero.mp h₁)
    subst hl
    cases f₂ <;> rfl
  | succ f ih =>
    intro f₂ l h₁ h₂
    cases l with
    | nil => cases f₂ <;> rfl
    | cons c t =>
      cases f₂ with
      | zero => simp at h₂
      | succ f₂' =>
        simp only [List.length_cons] at h₁ h₂
        simp only [pySubstituteGo]
        split_ifs with hc hr
        · congr 1
          apply ih <;> (simp only [List.length_drop]; omega)
        · congr 1
          apply ih <;> omega
        · congr 1
          apply ih <;> omega

/-- Scanning past a character that cannot open a placeholder. -/
theorem pySubstitute_cons_of_ne (vars : List (String × String)) (c : Char) (t : List Char)
    (h : c ≠ '{') :
    pySubstitute vars (c :: t) = c :: pySubstitute vars t := by
  show pySubstituteGo vars (c :: t).length (c :: t) = _
  simp only [List.length_cons, pySubstituteGo]
  rw [if_neg (fun hc => h hc.1)]
  rfl

/-- Literal text free of brace openers passes through the substitution. -/
theorem pySubstitute_append_lit (vars : List (String × String)) (s r : List Char)
    (h : ∀ c ∈ s, c ≠ '{') :
    pySubstitute vars (s ++ r) = s ++ pySubstitute vars r := by
  induction s with
  | nil => simp
  | cons c t ih =>
    simp only [List.cons_append]
    rw [pySubstitute_cons_of_ne _ _ _ (h c (by simp))]
    rw [ih (fun x hx => h x (by simp [hx]))]

/-- Evaluating the substitution at one well-formed placeholder. -/
theorem pySubstitute_ph (vars : List (String × String)) (cd r : List Char)
    (hne : cd ≠ []) (hcd : ∀ ch ∈ cd, ch ≠ '}') :
    pySubstitute vars ('{' :: '{' :: (cd ++ '}' :: '}' :: r)) =
      (substFor vars (String.mk (pyStripL cd))).data ++ pySubstitute vars r := by
  have hrun : (cd ++ '}' :: '}' :: r).takeWhile (fun x => x ≠ '}') = cd := by
    rw [List.takeWhile_append_of_pos (by intro a ha; simpa using hcd a ha)]
    simp [List.takeWhile_cons]
  show pySubstituteGo vars _ _ = _
  simp only [List.length_cons, pySubstituteGo]
  rw [if_pos (by simp)]
  have e1 : ('{' :: (cd ++ '}' :: '}' :: r)).drop 1 = cd ++ '}' :: '}' :: r := rfl
  rw [e1, hrun, List.drop_left]
  have e2 : ('}' :: '}' :: r).take 2 = ['}', '}'] := rfl
  rw [if_pos ⟨hne, e2⟩]
  have e3 : ('}' :: '}' :: r).drop 2 = r := rfl
  rw [e3]
  congr 1
  exact pySubstituteGo_fuel vars _ _ r (by simp only [List.length_append, List.length_cons]; omega)
    (le_refl _)

/-- Counterexample to C7 as stated: an unmatched placeholder written without
the canonical single spaces is not left intact — the code re-renders it from
the stripped name with single spaces, so the template consisting of the one
placeholder `\x7b\x7bmissing\x7d\x7d` is changed even though `missing` is
not a key of the variable mapping. -/
theorem substitute_variables_normalizes_counterexample :
    pySubstitute [("name", "Ann")] "\x7b\x7bmissing\x7d\x7d".data =
      "\x7b\x7b missing \x7d\x7d".data ∧
    pySubstitute [("name", "Ann")] "\x7b\x7bmissing\x7d\x7d".data ≠
      "\x7b\x7bmissing\x7d\x7d".data := by
  decide

/-- C7 (amended): on a template decomposed into literal text (without brace
openers) and placeholders with non-empty, closing-brace-free content, every
placeholder whose stripped name is a key of the mapping is replaced by that
key's value, and every other placeholder is re-emitted (never erased) as
`\x7b\x7b name \x7d\x7d` with the stripped name between single spaces — so
placeholders already written in that canonical form are preserved verbatim.
In particular the template `"Hello \x7b\x7b name \x7d\x7d, \x7b\x7b missing
\x7d\x7d"` with variables `name = "Ann"` yields
`"Hello Ann, \x7b\x7b missing \x7d\x7d"`. -/
theorem substitute_variables_segments (vars : List (String × String)) (segs : List TSeg)
    (h : ∀ seg ∈ segs, WFseg seg) :
    pySubstitute vars (renderT segs) = substT vars segs := by
  induction segs with
  | nil => rfl
  | cons seg rest ih =>
    have hrest : ∀ s ∈ rest, WFseg s := fun s hs => h s (List.mem_cons_of_mem _ hs)
    have hseg : WFseg seg := h seg (List.mem_cons_self _ _)
    cases seg with
    | lit s =>
      simp only [renderT, substT]
      rw [pySubstitute_append_lit vars s.data _ hseg, ih hrest]
    | ph c =>
      simp only [renderT, substT]
      rw [pySubstitute_ph vars c.data _ hseg.1 hseg.2, ih hrest]
      rfl

/-- Witness for `substitute_variables_segments` at the spec's example
template (decomposed into its literal and placeholder segments). -/
theorem substitute_variables_segments_witness :
    renderT [.lit "Hello ", .ph " name ", .lit ", ", .ph " missing "] =
      "Hello \x7b\x7b name \x7d\x7d, \x7b\x7b missing \x7d\x7d".data ∧
    pySubstitute [("name", "Ann")]
        (renderT [.lit "Hello ", .ph " name ", .lit ", ", .ph " missing "]) =
      "Hello Ann, \x7b\x7b missing \x7d\x7d".data := by
  refine ⟨by decide, ?_⟩
  rw [substitute_variables_segments [("name", "Ann")] _ (by decide)]
  decide

end CoverMe
